import Mathlib

/-
Shallow embedding of the rocket-led-arduino LED controller.

The repository holds two variants of the same sketch:
  * `src/rocket-led-arduino/rocket-led-arduino.ino` — embedded in namespace `Ino`
    (block size 3, period 6, PHASE_COUNT computed as sizeof(PHASES)/sizeof(PHASES[0]) = 9,
    unguarded PHASES lookup in the render pass);
  * `src/unnamed/part_000` — embedded in namespace `Alt`
    (PATTERN_BLOCK 2, PATTERN_PERIOD 4, PHASE_COUNT 10,
    PHASES lookup guarded by `phaseIndex < 9`).
Shared constants, color helpers, the phase table and the input mapping are
identical in both variants and live at the top of namespace `RocketLed`.

C machine arithmetic is modelled with Nat where all values are provably
non-negative, and with Int plus truncating division/remainder (`Int.tdiv`,
`Int.tmod`) where intermediate values can be negative (the reversed chase
index and the Arduino `map` function applied to an inverted output range).
-/

namespace RocketLed

/-- An RGB color value, as packed by the NeoPixel call pixels.Color(r, g, b).
Two packed uint32 color words are equal iff the byte components are equal,
so a record of the three components is a faithful model; COL_OFF = 0
corresponds to the components (0, 0, 0). -/
structure Color where
  r : Nat
  g : Nat
  b : Nat
deriving DecidableEq, Repr

/-- colWhite from the source: pixels.Color(b, b, b). -/
def colWhite (b : Nat) : Color := ⟨b, b, b⟩

/-- colBlue from the source: pixels.Color(b/7, b/7, b). -/
def colBlue (b : Nat) : Color := ⟨b / 7, b / 7, b⟩

/-- colOrange from the source: pixels.Color(b, b/3, 0). -/
def colOrange (b : Nat) : Color := ⟨b, b / 3, 0⟩

/-- COL_OFF = 0, the packed color with all components zero. -/
def COL_OFF : Color := ⟨0, 0, 0⟩

/-- const int LED_COUNT = 108. -/
def LED_COUNT : Nat := 108

/-- const int SEG_A_START = 0. -/
def SEG_A_START : Nat := 0

/-- const int SEG_A_END = 32. -/
def SEG_A_END : Nat := 32

/-- const int SEG_B_START = 33. -/
def SEG_B_START : Nat := 33

/-- const int SEG_B_END = 107. -/
def SEG_B_END : Nat := 107

/-- struct Range { int s, e; }; both fields are non-negative in every use. -/
structure Range where
  s : Nat
  e : Nat
deriving DecidableEq, Repr

/-- The PHASES array: nine fixed sub-ranges of Segment B, identical in both
source variants. -/
def PHASES : List Range :=
  [⟨33, 41⟩, ⟨42, 45⟩, ⟨46, 57⟩, ⟨58, 62⟩, ⟨63, 73⟩,
   ⟨74, 79⟩, ⟨80, 87⟩, ⟨88, 101⟩, ⟨102, 107⟩]

/-- const uint8_t BRIGHT_MIN = 10. -/
def BRIGHT_MIN : Nat := 10

/-- const uint8_t BRIGHT_MAX = 255. -/
def BRIGHT_MAX : Nat := 255

/-- const unsigned long CHASE_DELAY_MIN_MS = 20. -/
def CHASE_DELAY_MIN_MS : Nat := 20

/-- const unsigned long CHASE_DELAY_MAX_MS = 300. -/
def CHASE_DELAY_MAX_MS : Nat := 300

/-- The REVERSE_FLOW preprocessor flag, set to 1 in both source variants.
Following the spec design note it is modelled as a boolean configuration
value selecting between the two #if branches of the chase-index computation. -/
def REVERSE_FLOW : Bool := true

/-- The brightness computation from loop():
int b = rawB / 4; if (b < BRIGHT_MIN) b = BRIGHT_MIN; if (b > BRIGHT_MAX) b = BRIGHT_MAX;
rawB is an analogRead result in [0, 1023], hence non-negative, so Nat
division coincides with C int division. -/
def brightnessOf (rawB : Nat) : Nat :=
  let b0 := rawB / 4
  let b1 := if b0 < BRIGHT_MIN then BRIGHT_MIN else b0
  if b1 > BRIGHT_MAX then BRIGHT_MAX else b1

/-- The Arduino core map() function:
long map(long x, long in_min, long in_max, long out_min, long out_max)
\x7b return (x - in_min) * (out_max - out_min) / (in_max - in_min) + out_min; \x7d
C long division truncates toward zero, which is Int.tdiv. -/
def arduinoMap (x inMin inMax outMin outMax : Int) : Int :=
  ((x - inMin) * (outMax - outMin)).tdiv (inMax - inMin) + outMin

/-- phaseDelayMs = map(rawS, 0, 1023, 5000, 300) from loop(). -/
def phaseDelayOf (rawS : Nat) : Int :=
  arduinoMap rawS 0 1023 5000 300

/-- The chase-delay computation from loop():
unsigned long cd = phaseDelayMs / 8;
if (cd < CHASE_DELAY_MIN_MS) cd = CHASE_DELAY_MIN_MS;
if (cd > CHASE_DELAY_MAX_MS) cd = CHASE_DELAY_MAX_MS;
phaseDelayMs is an unsigned long, modelled as Nat. -/
def chaseDelayOf (phaseDelayMs : Nat) : Nat :=
  let cd0 := phaseDelayMs / 8
  let cd1 := if cd0 < CHASE_DELAY_MIN_MS then CHASE_DELAY_MIN_MS else cd0
  if cd1 > CHASE_DELAY_MAX_MS then CHASE_DELAY_MAX_MS else cd1

/-- The per-pixel chase index of Segment A, both #if REVERSE_FLOW branches:
idx = ((rel - chaseStep) % period + period) % period  when the flag is set,
idx = (rel + chaseStep) % period                      otherwise.
C int % is truncating remainder, Int.tmod. -/
def segAIdx (rev : Bool) (period rel step : Int) : Int :=
  if rev then ((rel - step).tmod period + period).tmod period
  else (rel + step).tmod period

/-- The Segment A per-pixel color: col = (idx < block) ? colWhite(b) : colBlue(b). -/
def renderSegAPixel (rev : Bool) (block period : Int) (b : Nat) (rel step : Int) : Color :=
  if segAIdx rev period rel step < block then colWhite b else colBlue b

/-- The pixel buffer of the strip, indexed by LED number. -/
def Buffer := Nat → Color

/-- pixels.setPixelColor(i, c): point update of the buffer. -/
def setPixelColor (buf : Buffer) (i : Nat) (c : Color) : Buffer :=
  fun j => if j = i then c else buf j

/-- The index list traversed by a C loop `for (int i = s; i <= e; i++)`. -/
def rangeList (s e : Nat) : List Nat := List.range' s (e + 1 - s)

/-- A loop that writes color f(i) to every pixel i of the list, in order. -/
def writeRange (f : Nat → Color) (l : List Nat) (buf : Buffer) : Buffer :=
  l.foldl (fun acc i => setPixelColor acc i (f i)) buf

namespace Ino

/-- const int PHASE_COUNT = sizeof(PHASES)/sizeof(PHASES[0]) in the .ino
variant, i.e. the length of the PHASES array. -/
def PHASE_COUNT : Nat := PHASES.length

/-- chaseStep = (chaseStep + 1) % 6 in the .ino variant. -/
def advanceChase (s : Nat) : Nat := (s + 1) % 6

/-- phaseIndex = (phaseIndex + 1) % PHASE_COUNT in the .ino variant. -/
def advancePhase (p : Nat) : Nat := (p + 1) % PHASE_COUNT

/-- One render pass of the .ino variant loop(): Segment A chase with the
literal block 3 and period 6, then Segment B cleared to COL_OFF, then the
unguarded lighting of PHASES[phaseIndex] (white, orange at pixel 74 in
phase 5). The out-of-bounds C array read PHASES[phaseIndex] for
phaseIndex >= 9 never happens in execution (the index is advanced modulo
PHASE_COUNT = 9); the model uses getD with a default record there. -/
def renderFrame (b chaseStep phaseIndex : Nat) (buf : Buffer) : Buffer :=
  let bufA := writeRange
    (fun i => renderSegAPixel REVERSE_FLOW 3 6 b ((i : Int) - (SEG_A_START : Int)) chaseStep)
    (rangeList SEG_A_START SEG_A_END) buf
  let bufB := writeRange (fun _ => COL_OFF) (rangeList SEG_B_START SEG_B_END) bufA
  let r := PHASES.getD phaseIndex ⟨0, 0⟩
  writeRange
    (fun i => if phaseIndex = 5 ∧ i = 74 then colOrange b else colWhite b)
    (rangeList r.s r.e) bufB

end Ino

namespace Alt

/-- const int PATTERN_BLOCK = 2 in the part_000 variant. -/
def PATTERN_BLOCK : Nat := 2

/-- const int PATTERN_PERIOD = PATTERN_BLOCK * 2. -/
def PATTERN_PERIOD : Nat := PATTERN_BLOCK * 2

/-- const int PHASE_COUNT = 10 in the part_000 variant. -/
def PHASE_COUNT : Nat := 10

/-- chaseStep = (chaseStep + 1) % PATTERN_PERIOD in the part_000 variant. -/
def advanceChase (s : Nat) : Nat := (s + 1) % PATTERN_PERIOD

/-- phaseIndex = (phaseIndex + 1) % PHASE_COUNT in the part_000 variant. -/
def advancePhase (p : Nat) : Nat := (p + 1) % PHASE_COUNT

/-- One render pass of the part_000 variant loop(): Segment A chase with
PATTERN_BLOCK/PATTERN_PERIOD, then Segment B cleared to COL_OFF, then —
only when phaseIndex < 9 — the lighting of PHASES[phaseIndex]. -/
def renderFrame (b chaseStep phaseIndex : Nat) (buf : Buffer) : Buffer :=
  let bufA := writeRange
    (fun i => renderSegAPixel REVERSE_FLOW (PATTERN_BLOCK : Int) (PATTERN_PERIOD : Int) b
      ((i : Int) - (SEG_A_START : Int)) chaseStep)
    (rangeList SEG_A_START SEG_A_END) buf
  let bufB := writeRange (fun _ => COL_OFF) (rangeList SEG_B_START SEG_B_END) bufA
  if phaseIndex < 9 then
    let r := PHASES.getD phaseIndex ⟨0, 0⟩
    writeRange
      (fun i => if phaseIndex = 5 ∧ i = 74 then colOrange b else colWhite b)
      (rangeList r.s r.e) bufB
  else bufB

end Alt

/-! ### Helper lemmas -/

theorem setPixelColor_apply (buf : Buffer) (i : Nat) (c : Color) (j : Nat) :
    setPixelColor buf i c j = if j = i then c else buf j := rfl

theorem writeRange_apply (f : Nat → Color) (l : List Nat) (buf : Buffer) (j : Nat) :
    writeRange f l buf j = if j ∈ l then f j else buf j := by
  induction l generalizing buf with
  | nil => simp [writeRange]
  | cons i rest ih =>
    simp only [writeRange, List.foldl_cons] at *
    rw [ih]
    by_cases hjr : j ∈ rest
    · simp [hjr, List.mem_cons]
    · by_cases hji : j = i <;>
        simp [hjr, hji, setPixelColor, List.mem_cons]

theorem mem_rangeList {j s e : Nat} : j ∈ rangeList s e ↔ s ≤ j ∧ j ≤ e := by
  unfold rangeList
  rw [List.mem_range']
  constructor
  · rintro ⟨i, hi, rfl⟩; omega
  · intro h; exact ⟨j - s, by omega, by omega⟩

theorem tmod_neg_lower {x p : Int} (hp : 0 < p) : -p < x.tmod p := by
  rcases x with m | m
  · have h := Int.tmod_nonneg p (Int.ofNat_nonneg m)
    simp only [Int.ofNat_eq_coe] at h ⊢
    omega
  · rcases p with n | n
    · have he : (Int.negSucc m).tmod (Int.ofNat n) = -(Int.ofNat ((m + 1) % n)) := rfl
      rw [he]
      have hn : 0 < n := by
        simp only [Int.ofNat_eq_coe] at hp
        exact_mod_cast hp
      have hlt := Nat.mod_lt (m + 1) hn
      simp only [Int.ofNat_eq_coe]
      omega
    · exact absurd hp (Int.not_lt.mpr (Int.le_of_lt (Int.negSucc_lt_zero n)))

theorem tmod_wrap_bounds (x : Int) {p : Int} (hp : 0 < p) :
    0 ≤ (x.tmod p + p).tmod p ∧ (x.tmod p + p).tmod p < p := by
  have h1 := tmod_neg_lower (x := x) hp
  exact ⟨Int.tmod_nonneg p (by omega), Int.tmod_lt_of_pos _ hp⟩

theorem phaseDelayOf_eq (s : Nat) :
    phaseDelayOf s = 5000 - ((4700 * s / 1023 : Nat) : Int) := by
  unfold phaseDelayOf arduinoMap
  have h1 : ((s : Int) - 0) * (300 - 5000) = -(((4700 * s : Nat) : Int)) := by
    push_cast; ring
  have h2 : ((1023 : Int) - 0) = ((1023 : Nat) : Int) := by norm_num
  rw [h1, h2, Int.neg_tdiv, ← Int.ofNat_tdiv]
  omega

theorem phases_getD_bounds (pi : Nat) :
    (PHASES.getD pi ⟨0, 0⟩).e ≤ 107 ∧
      (pi < 9 → 33 ≤ (PHASES.getD pi ⟨0, 0⟩).s ∧
        (PHASES.getD pi ⟨0, 0⟩).s ≤ (PHASES.getD pi ⟨0, 0⟩).e) := by
  rcases Nat.lt_or_ge pi 9 with h | h
  · interval_cases pi <;> exact ⟨by decide, fun _ => by decide⟩
  · have hlen : PHASES.length ≤ pi := by
      simp only [PHASES, List.length]
      omega
    rw [List.getD_eq_default _ _ hlen]
    exact ⟨by decide, fun hc => absurd hc (by omega)⟩

theorem ino_renderFrame_applyA (b cs pi : Nat) (buf : Buffer) {j : Nat}
    (hpi : pi < 9) (hj : j ≤ SEG_A_END) :
    Ino.renderFrame b cs pi buf j =
      renderSegAPixel REVERSE_FLOW 3 6 b ((j : Int) - (SEG_A_START : Int)) cs := by
  have hr2 := (phases_getD_bounds pi).2 hpi
  unfold Ino.renderFrame
  simp only [writeRange_apply, mem_rangeList, SEG_A_START, SEG_A_END,
    SEG_B_START, SEG_B_END] at *
  split_ifs <;> first | rfl | omega

theorem ino_renderFrame_applyB (b cs pi : Nat) (buf : Buffer) {j : Nat}
    (h33 : SEG_B_START ≤ j) (h107 : j ≤ SEG_B_END) :
    Ino.renderFrame b cs pi buf j =
      if (PHASES.getD pi ⟨0, 0⟩).s ≤ j ∧ j ≤ (PHASES.getD pi ⟨0, 0⟩).e then
        (if pi = 5 ∧ j = 74 then colOrange b else colWhite b)
      else COL_OFF := by
  unfold Ino.renderFrame
  simp only [writeRange_apply, mem_rangeList, SEG_A_START, SEG_A_END,
    SEG_B_START, SEG_B_END] at *
  split_ifs <;> first | rfl | omega

theorem ino_renderFrame_untouched (b cs pi : Nat) (buf : Buffer) {j : Nat}
    (hj : SEG_B_END < j) :
    Ino.renderFrame b cs pi buf j = buf j := by
  have hr := (phases_getD_bounds pi).1
  unfold Ino.renderFrame
  simp only [writeRange_apply, mem_rangeList, SEG_A_START, SEG_A_END,
    SEG_B_START, SEG_B_END] at *
  split_ifs <;> first | rfl | omega

theorem alt_renderFrame_applyA (b cs pi : Nat) (buf : Buffer) {j : Nat}
    (hj : j ≤ SEG_A_END) :
    Alt.renderFrame b cs pi buf j =
      renderSegAPixel REVERSE_FLOW (Alt.PATTERN_BLOCK : Int) (Alt.PATTERN_PERIOD : Int) b
        ((j : Int) - (SEG_A_START : Int)) cs := by
  unfold Alt.renderFrame
  by_cases hpi : pi < 9
  · have hr2 := (phases_getD_bounds pi).2 hpi
    rw [if_pos hpi]
    simp only [writeRange_apply, mem_rangeList, SEG_A_START, SEG_A_END,
      SEG_B_START, SEG_B_END] at *
    split_ifs <;> first | rfl | omega
  · rw [if_neg hpi]
    simp only [writeRange_apply, mem_rangeList, SEG_A_START, SEG_A_END,
      SEG_B_START, SEG_B_END] at *
    split_ifs <;> first | rfl | omega

theorem alt_renderFrame_applyB (b cs pi : Nat) (buf : Buffer) {j : Nat}
    (h33 : SEG_B_START ≤ j) (h107 : j ≤ SEG_B_END) :
    Alt.renderFrame b cs pi buf j =
      if pi < 9 ∧ (PHASES.getD pi ⟨0, 0⟩).s ≤ j ∧ j ≤ (PHASES.getD pi ⟨0, 0⟩).e then
        (if pi = 5 ∧ j = 74 then colOrange b else colWhite b)
      else COL_OFF := by
  unfold Alt.renderFrame
  by_cases hpi : pi < 9
  · rw [if_pos hpi]
    simp only [writeRange_apply, mem_rangeList, SEG_B_START, SEG_B_END] at *
    split_ifs <;> first | rfl | omega
  · rw [if_neg hpi]
    simp only [writeRange_apply, mem_rangeList, SEG_B_START, SEG_B_END] at *
    split_ifs <;> first | rfl | omega

theorem alt_renderFrame_untouched (b cs pi : Nat) (buf : Buffer) {j : Nat}
    (hj : SEG_B_END < j) :
    Alt.renderFrame b cs pi buf j = buf j := by
  have hr := (phases_getD_bounds pi).1
  unfold Alt.renderFrame
  by_cases hpi : pi < 9
  · rw [if_pos hpi]
    simp only [writeRange_apply, mem_rangeList, SEG_A_START, SEG_A_END,
      SEG_B_START, SEG_B_END] at *
    split_ifs <;> first | rfl | omega
  · rw [if_neg hpi]
    simp only [writeRange_apply, mem_rangeList, SEG_A_START, SEG_A_END,
      SEG_B_START, SEG_B_END] at *
    split_ifs <;> first | rfl | omega

theorem iterate_add_one_mod (p : Nat) (N : Nat) :
    (fun s => (s + 1) % p)^[N] 0 = N % p := by
  induction N with
  | zero => simp
  | succ n ih =>
    rw [Function.iterate_succ_apply', ih]
    exact Nat.mod_add_mod n p 1

theorem ino_renderFrame_indep (b cs pi : Nat) (buf buf2 : Buffer) {j : Nat}
    (hpi : pi < 9) (hj : j < 108) :
    Ino.renderFrame b cs pi buf j = Ino.renderFrame b cs pi buf2 j := by
  rcases Nat.lt_or_ge j 33 with h | h
  · rw [ino_renderFrame_applyA b cs pi buf hpi (by show j ≤ 32; omega),
      ino_renderFrame_applyA b cs pi buf2 hpi (by show j ≤ 32; omega)]
  · rw [ino_renderFrame_applyB b cs pi buf (by show 33 ≤ j; omega) (by show j ≤ 107; omega),
      ino_renderFrame_applyB b cs pi buf2 (by show 33 ≤ j; omega) (by show j ≤ 107; omega)]

theorem alt_renderFrame_indep (b cs pi : Nat) (buf buf2 : Buffer) {j : Nat}
    (hj : j < 108) :
    Alt.renderFrame b cs pi buf j = Alt.renderFrame b cs pi buf2 j := by
  rcases Nat.lt_or_ge j 33 with h | h
  · rw [alt_renderFrame_applyA b cs pi buf (by show j ≤ 32; omega),
      alt_renderFrame_applyA b cs pi buf2 (by show j ≤ 32; omega)]
  · rw [alt_renderFrame_applyB b cs pi buf (by show 33 ≤ j; omega) (by show j ≤ 107; omega),
      alt_renderFrame_applyB b cs pi buf2 (by show 33 ≤ j; omega) (by show j ≤ 107; omega)]

/-! ### Claim theorems -/

/-- C3: for every raw speed sample s in [0,1023], the mapped phaseDelay is
monotonically non-increasing in s, with phaseDelay(0) = 5000 and
phaseDelay(1023) = 300 exactly, by integer linear interpolation onto the
inverted range [5000, 300], with no further clamping. -/
theorem c3_phaseDelay_map (s t : Nat) (hst : s ≤ t) (ht : t ≤ 1023) :
    phaseDelayOf 0 = 5000 ∧ phaseDelayOf 1023 = 300 ∧
      phaseDelayOf t ≤ phaseDelayOf s := by
  refine ⟨by decide, by decide, ?_⟩
  rw [phaseDelayOf_eq, phaseDelayOf_eq]
  omega

/-- Witness for C3 at the extreme samples 0 and 1023. -/
theorem c3_phaseDelay_map_witness :
    phaseDelayOf 0 = 5000 ∧ phaseDelayOf 1023 = 300 ∧
      phaseDelayOf 1023 ≤ phaseDelayOf 0 :=
  c3_phaseDelay_map 0 1023 (by decide) (by decide)

/-- C4: for every phaseDelay value, chaseDelay = clamp(phaseDelay / 8, 20, 300)
with integer division; phaseDelay 1200 gives 150, 5000 gives 300 (clamped
from 625), 300 gives 37 (unclamped). -/
theorem c4_chaseDelay_clamp (pd : Nat) :
    chaseDelayOf pd = max CHASE_DELAY_MIN_MS (min CHASE_DELAY_MAX_MS (pd / 8)) ∧
      chaseDelayOf 1200 = 150 ∧ chaseDelayOf 5000 = 300 ∧
      5000 / 8 = 625 ∧ chaseDelayOf 300 = 37 := by
  refine ⟨?_, by decide, by decide, by decide, by decide⟩
  unfold chaseDelayOf CHASE_DELAY_MIN_MS CHASE_DELAY_MAX_MS
  dsimp only
  split_ifs <;> omega

/-- C5: for every raw brightness sample s in [0,1023], the mapped brightness
equals s/4 clamped to [10, 255], always lies in [10, 255], and is
monotonically non-decreasing in the sample. -/
theorem c5_brightness_map (s t : Nat) (hst : s ≤ t) (ht : t ≤ 1023) :
    brightnessOf s = max BRIGHT_MIN (min BRIGHT_MAX (s / 4)) ∧
      BRIGHT_MIN ≤ brightnessOf s ∧ brightnessOf s ≤ BRIGHT_MAX ∧
      brightnessOf s ≤ brightnessOf t := by
  refine ⟨?_, ?_, ?_, ?_⟩ <;>
    · unfold brightnessOf BRIGHT_MIN BRIGHT_MAX
      dsimp only
      split_ifs <;> omega

/-- Witness for C5 at sample 512 (spec example: 512 / 4 = 128). -/
theorem c5_brightness_map_witness :
    brightnessOf 512 = max BRIGHT_MIN (min BRIGHT_MAX (512 / 4)) ∧
      BRIGHT_MIN ≤ brightnessOf 512 ∧ brightnessOf 512 ≤ BRIGHT_MAX ∧
      brightnessOf 512 ≤ brightnessOf 1023 :=
  c5_brightness_map 512 1023 (by decide) (by decide)

/-- C2: for every Segment A pixel j with rel = j - SEG_A_START, the chase
index is idx = ((rel - step) tmod period + period) tmod period under the
reversed direction flag and idx = (rel + step) tmod period otherwise,
period = 2 × block; idx is non-negative and below the period; the pixel is
colored white when idx < block and blue-tinted otherwise; and both program
variants render their Segment A pixels with exactly this function. -/
theorem c2_segA_render (rev : Bool) (block rel step : Int) (b cs pi j : Nat)
    (buf : Buffer) (hblock : 0 < block) (hrel : 0 ≤ rel) (hstep : 0 ≤ step)
    (hpi : pi < 9) (hj : j ≤ SEG_A_END) :
    segAIdx rev (2 * block) rel step =
        (if rev then ((rel - step).tmod (2 * block) + 2 * block).tmod (2 * block)
         else (rel + step).tmod (2 * block)) ∧
      0 ≤ segAIdx rev (2 * block) rel step ∧
      segAIdx rev (2 * block) rel step < 2 * block ∧
      renderSegAPixel rev block (2 * block) b rel step =
        (if segAIdx rev (2 * block) rel step < block then colWhite b else colBlue b) ∧
      (6 : Int) = 2 * 3 ∧ (Alt.PATTERN_PERIOD : Int) = 2 * (Alt.PATTERN_BLOCK : Int) ∧
      Ino.renderFrame b cs pi buf j =
        renderSegAPixel REVERSE_FLOW 3 6 b ((j : Int) - (SEG_A_START : Int)) cs ∧
      Alt.renderFrame b cs pi buf j =
        renderSegAPixel REVERSE_FLOW (Alt.PATTERN_BLOCK : Int) (Alt.PATTERN_PERIOD : Int) b
          ((j : Int) - (SEG_A_START : Int)) cs := by
  have hp : (0 : Int) < 2 * block := by omega
  have hbounds : 0 ≤ segAIdx rev (2 * block) rel step ∧
      segAIdx rev (2 * block) rel step < 2 * block := by
    unfold segAIdx
    cases rev with
    | false =>
      rw [if_neg (by simp)]
      exact ⟨Int.tmod_nonneg _ (by omega), Int.tmod_lt_of_pos _ hp⟩
    | true =>
      rw [if_pos rfl]
      exact tmod_wrap_bounds _ hp
  exact ⟨rfl, hbounds.1, hbounds.2, rfl, by decide, by decide,
    ino_renderFrame_applyA b cs pi buf hpi hj,
    alt_renderFrame_applyA b cs pi buf hj⟩

/-- Witness for C2 at rev = true, block = 3, rel = 0, step = 1, pixel 0. -/
theorem c2_segA_render_witness :
    segAIdx true (2 * 3) 0 1 =
        (if true then (((0 : Int) - 1).tmod (2 * 3) + 2 * 3).tmod (2 * 3)
         else ((0 : Int) + 1).tmod (2 * 3)) ∧
      0 ≤ segAIdx true (2 * 3) 0 1 ∧
      segAIdx true (2 * 3) 0 1 < 2 * 3 ∧
      renderSegAPixel true 3 (2 * 3) 128 0 1 =
        (if segAIdx true (2 * 3) 0 1 < 3 then colWhite 128 else colBlue 128) ∧
      (6 : Int) = 2 * 3 ∧ (Alt.PATTERN_PERIOD : Int) = 2 * (Alt.PATTERN_BLOCK : Int) ∧
      Ino.renderFrame 128 1 0 (fun _ => COL_OFF) 0 =
        renderSegAPixel REVERSE_FLOW 3 6 128 ((0 : Nat) - (SEG_A_START : Int)) 1 ∧
      Alt.renderFrame 128 1 0 (fun _ => COL_OFF) 0 =
        renderSegAPixel REVERSE_FLOW (Alt.PATTERN_BLOCK : Int) (Alt.PATTERN_PERIOD : Int) 128
          ((0 : Nat) - (SEG_A_START : Int)) 1 :=
  c2_segA_render true 3 0 1 128 1 0 0 (fun _ => COL_OFF)
    (by decide) (by decide) (by decide) (by decide) (by decide)

/-- C7: after N advances from the initial zero state, the chase step equals
N mod period (6 in the .ino variant, PATTERN_PERIOD = 4 in the part_000
variant) and the phase index equals N mod PHASE_COUNT (9 and 10
respectively), so both counters stay in range after arbitrarily many
advances, by the modulo arithmetic of the advance operations. -/
theorem c7_wraparound (N : Nat) :
    Ino.advanceChase^[N] 0 = N % 6 ∧
      Ino.advancePhase^[N] 0 = N % Ino.PHASE_COUNT ∧
      Alt.advanceChase^[N] 0 = N % Alt.PATTERN_PERIOD ∧
      Alt.advancePhase^[N] 0 = N % Alt.PHASE_COUNT ∧
      Ino.advanceChase^[N] 0 < 6 ∧
      Ino.advancePhase^[N] 0 < Ino.PHASE_COUNT ∧
      Alt.advanceChase^[N] 0 < Alt.PATTERN_PERIOD ∧
      Alt.advancePhase^[N] 0 < Alt.PHASE_COUNT := by
  have e1 : Ino.advanceChase = fun s => (s + 1) % 6 := rfl
  have e2 : Ino.advancePhase = fun s => (s + 1) % 9 := rfl
  have e3 : Alt.advanceChase = fun s => (s + 1) % 4 := rfl
  have e4 : Alt.advancePhase = fun s => (s + 1) % 10 := rfl
  have p1 : Ino.PHASE_COUNT = 9 := rfl
  have p2 : Alt.PATTERN_PERIOD = 4 := rfl
  have p3 : Alt.PHASE_COUNT = 10 := rfl
  rw [e1, e2, e3, e4, p1, p2, p3]
  refine ⟨iterate_add_one_mod 6 N, iterate_add_one_mod 9 N,
    iterate_add_one_mod 4 N, iterate_add_one_mod 10 N, ?_, ?_, ?_, ?_⟩ <;>
    · rw [iterate_add_one_mod _ N]
      exact Nat.mod_lt _ (by decide)

/-- C1 counterexample: the claim says every advance increments phaseIndex
modulo 10, but in the rocket-led-arduino.ino variant PHASE_COUNT is the
PHASES table length 9, so advancing from phase index 8 yields 0 where an
increment modulo 10 would yield 9. -/
theorem c1_counterexample :
    Ino.advancePhase 8 = 0 ∧ (8 + 1) % 10 = 9 ∧
      Ino.advancePhase 8 ≠ (8 + 1) % 10 := by
  decide

/-- C1 as amended: in the part_000 variant the sequencer has 10 states —
advance is +1 modulo 10, values 0..8 light the corresponding PhaseTable
sub-range (white, orange at pixel 74 in phase 5), and state 9 lights no
pixel of Segment B's range [33,107]; in the .ino variant PHASE_COUNT is
the table length 9, advance is +1 modulo 9, and no all-off state exists. -/
theorem c1_phase_sequencer (p pi b cs i : Nat) (buf : Buffer)
    (h33 : 33 ≤ i) (h107 : i ≤ 107) :
    Alt.advancePhase p = (p + 1) % 10 ∧ Alt.PHASE_COUNT = 10 ∧
      Ino.advancePhase p = (p + 1) % 9 ∧ Ino.PHASE_COUNT = PHASES.length ∧
      PHASES.length = 9 ∧
      Alt.renderFrame b cs 9 buf i = COL_OFF ∧
      (pi < 9 → (PHASES.getD pi ⟨0, 0⟩).s ≤ i → i ≤ (PHASES.getD pi ⟨0, 0⟩).e →
        Alt.renderFrame b cs pi buf i =
          (if pi = 5 ∧ i = 74 then colOrange b else colWhite b)) := by
  refine ⟨rfl, rfl, rfl, rfl, rfl, ?_, ?_⟩
  · rw [alt_renderFrame_applyB b cs 9 buf h33 h107,
      if_neg (by rintro ⟨h, -⟩; omega)]
  · intro hpi hs he
    rw [alt_renderFrame_applyB b cs pi buf h33 h107,
      if_pos ⟨hpi, hs, he⟩]

/-- Witness for C1 as amended, at p = 9, pi = 0, pixel 33. -/
theorem c1_phase_sequencer_witness :
    Alt.advancePhase 9 = (9 + 1) % 10 ∧ Alt.PHASE_COUNT = 10 ∧
      Ino.advancePhase 9 = (9 + 1) % 9 ∧ Ino.PHASE_COUNT = PHASES.length ∧
      PHASES.length = 9 ∧
      Alt.renderFrame 128 1 9 (fun _ => COL_OFF) 33 = COL_OFF ∧
      (0 < 9 → (PHASES.getD 0 ⟨0, 0⟩).s ≤ 33 → 33 ≤ (PHASES.getD 0 ⟨0, 0⟩).e →
        Alt.renderFrame 128 1 0 (fun _ => COL_OFF) 33 =
          (if 0 = 5 ∧ 33 = 74 then colOrange 128 else colWhite 128)) :=
  c1_phase_sequencer 9 0 128 1 33 (fun _ => COL_OFF) (by decide) (by decide)

/-- C6: in phase 5 every pixel of that phase's sub-range [74,79] renders
white except pixel 74, which renders orange (both variants); and for every
phase index, every Segment B pixel outside the active sub-range renders
off — in the part_000 variant phase index 9 has no active sub-range, so
everything in [33,107] is off. -/
theorem c6_phase_render (b cs pi i : Nat) (buf : Buffer)
    (hpi : pi < 10) (h33 : 33 ≤ i) (h107 : i ≤ 107) :
    PHASES.getD 5 ⟨0, 0⟩ = ⟨74, 79⟩ ∧
      (74 ≤ i → i ≤ 79 → i ≠ 74 →
        Ino.renderFrame b cs 5 buf i = colWhite b ∧
          Alt.renderFrame b cs 5 buf i = colWhite b) ∧
      Ino.renderFrame b cs 5 buf 74 = colOrange b ∧
      Alt.renderFrame b cs 5 buf 74 = colOrange b ∧
      (pi < 9 → ¬((PHASES.getD pi ⟨0, 0⟩).s ≤ i ∧ i ≤ (PHASES.getD pi ⟨0, 0⟩).e) →
        Ino.renderFrame b cs pi buf i = COL_OFF ∧
          Alt.renderFrame b cs pi buf i = COL_OFF) ∧
      (pi = 9 → Alt.renderFrame b cs pi buf i = COL_OFF) := by
  refine ⟨by decide, ?_, ?_, ?_, ?_, ?_⟩
  · intro h74 h79 hne
    constructor
    · rw [ino_renderFrame_applyB b cs 5 buf h33 h107,
        if_pos (show (PHASES.getD 5 ⟨0, 0⟩).s ≤ i ∧ i ≤ (PHASES.getD 5 ⟨0, 0⟩).e from
          ⟨by show 74 ≤ i; omega, by show i ≤ 79; omega⟩),
        if_neg (by rintro ⟨-, h⟩; exact hne h)]
    · rw [alt_renderFrame_applyB b cs 5 buf h33 h107,
        if_pos (show (5 : Nat) < 9 ∧
            (PHASES.getD 5 ⟨0, 0⟩).s ≤ i ∧ i ≤ (PHASES.getD 5 ⟨0, 0⟩).e from
          ⟨by omega, by show 74 ≤ i; omega, by show i ≤ 79; omega⟩),
        if_neg (by rintro ⟨-, h⟩; exact hne h)]
  · rw [ino_renderFrame_applyB b cs 5 buf (by decide) (by decide),
      if_pos (show (PHASES.getD 5 ⟨0, 0⟩).s ≤ 74 ∧ 74 ≤ (PHASES.getD 5 ⟨0, 0⟩).e by decide),
      if_pos (show (5 : Nat) = 5 ∧ (74 : Nat) = 74 from ⟨rfl, rfl⟩)]
  · rw [alt_renderFrame_applyB b cs 5 buf (by decide) (by decide),
      if_pos (show (5 : Nat) < 9 ∧
          (PHASES.getD 5 ⟨0, 0⟩).s ≤ 74 ∧ 74 ≤ (PHASES.getD 5 ⟨0, 0⟩).e by decide),
      if_pos (show (5 : Nat) = 5 ∧ (74 : Nat) = 74 from ⟨rfl, rfl⟩)]
  · intro hpi9 hout
    constructor
    · rw [ino_renderFrame_applyB b cs pi buf h33 h107, if_neg hout]
    · rw [alt_renderFrame_applyB b cs pi buf h33 h107,
        if_neg (by rintro ⟨-, h1, h2⟩; exact hout ⟨h1, h2⟩)]
  · intro h9
    subst h9
    rw [alt_renderFrame_applyB b cs 9 buf h33 h107,
      if_neg (by rintro ⟨h, -⟩; omega)]

/-- Witness for C6 at phase 5, pixel 75. -/
theorem c6_phase_render_witness :
    PHASES.getD 5 ⟨0, 0⟩ = ⟨74, 79⟩ ∧
      (74 ≤ 75 → 75 ≤ 79 → 75 ≠ 74 →
        Ino.renderFrame 128 1 5 (fun _ => COL_OFF) 75 = colWhite 128 ∧
          Alt.renderFrame 128 1 5 (fun _ => COL_OFF) 75 = colWhite 128) ∧
      Ino.renderFrame 128 1 5 (fun _ => COL_OFF) 74 = colOrange 128 ∧
      Alt.renderFrame 128 1 5 (fun _ => COL_OFF) 74 = colOrange 128 ∧
      (5 < 9 → ¬((PHASES.getD 5 ⟨0, 0⟩).s ≤ 75 ∧ 75 ≤ (PHASES.getD 5 ⟨0, 0⟩).e) →
        Ino.renderFrame 128 1 5 (fun _ => COL_OFF) 75 = COL_OFF ∧
          Alt.renderFrame 128 1 5 (fun _ => COL_OFF) 75 = COL_OFF) ∧
      (5 = 9 → Alt.renderFrame 128 1 5 (fun _ => COL_OFF) 75 = COL_OFF) :=
  c6_phase_render 128 1 5 75 (fun _ => COL_OFF) (by decide) (by decide) (by decide)

/-- C8: Segment A's range [0,32] and Segment B's range [33,107] are
disjoint, contiguous, and together cover exactly the pixel indices below
LED_COUNT = 108; and the render pass of either variant fully overwrites
the buffer — the output at every strip index is independent of the
previous buffer contents. -/
theorem c8_full_coverage (i k b cs pi piA : Nat) (buf buf2 : Buffer)
    (hpi : pi < 9) (hi : i < LED_COUNT) :
    (i ∈ rangeList SEG_A_START SEG_A_END ∨ i ∈ rangeList SEG_B_START SEG_B_END) ∧
      ¬(i ∈ rangeList SEG_A_START SEG_A_END ∧ i ∈ rangeList SEG_B_START SEG_B_END) ∧
      ((k ∈ rangeList SEG_A_START SEG_A_END ∨ k ∈ rangeList SEG_B_START SEG_B_END) →
        k < LED_COUNT) ∧
      SEG_B_START = SEG_A_END + 1 ∧ LED_COUNT = 108 ∧
      Ino.renderFrame b cs pi buf i = Ino.renderFrame b cs pi buf2 i ∧
      Alt.renderFrame b cs piA buf i = Alt.renderFrame b cs piA buf2 i := by
  simp only [mem_rangeList, SEG_A_START, SEG_A_END, SEG_B_START, SEG_B_END,
    LED_COUNT] at *
  exact ⟨by omega, by omega, by omega, by trivial, by trivial,
    ino_renderFrame_indep b cs pi buf buf2 hpi (by omega),
    alt_renderFrame_indep b cs piA buf buf2 (by omega)⟩

/-- Witness for C8 at pixel 0, with two distinct starting buffers. -/
theorem c8_full_coverage_witness :
    ((0 : Nat) ∈ rangeList SEG_A_START SEG_A_END ∨
        (0 : Nat) ∈ rangeList SEG_B_START SEG_B_END) ∧
      ¬((0 : Nat) ∈ rangeList SEG_A_START SEG_A_END ∧
        (0 : Nat) ∈ rangeList SEG_B_START SEG_B_END) ∧
      (((200 : Nat) ∈ rangeList SEG_A_START SEG_A_END ∨
          (200 : Nat) ∈ rangeList SEG_B_START SEG_B_END) → (200 : Nat) < LED_COUNT) ∧
      SEG_B_START = SEG_A_END + 1 ∧ LED_COUNT = 108 ∧
      Ino.renderFrame 128 1 0 (fun _ => COL_OFF) 0 =
        Ino.renderFrame 128 1 0 (fun _ => colWhite 9) 0 ∧
      Alt.renderFrame 128 1 9 (fun _ => COL_OFF) 0 =
        Alt.renderFrame 128 1 9 (fun _ => colWhite 9) 0 :=
  c8_full_coverage 0 200 128 1 0 9 (fun _ => COL_OFF) (fun _ => colWhite 9)
    (by decide) (by decide)

/-- C9: rendering is a pure function of the animator state and parameters:
re-rendering on top of an already rendered buffer reproduces it exactly,
in both variants. -/
theorem c9_render_pure (b cs pi piA : Nat) (buf : Buffer) (hpi : pi < 9) :
    Ino.renderFrame b cs pi (Ino.renderFrame b cs pi buf) =
        Ino.renderFrame b cs pi buf ∧
      Alt.renderFrame b cs piA (Alt.renderFrame b cs piA buf) =
        Alt.renderFrame b cs piA buf := by
  constructor
  · funext j
    rcases Nat.lt_or_ge j 108 with hj | hj
    · exact ino_renderFrame_indep b cs pi _ buf hpi hj
    · exact ino_renderFrame_untouched b cs pi _ (by show 107 < j; omega)
  · funext j
    rcases Nat.lt_or_ge j 108 with hj | hj
    · exact alt_renderFrame_indep b cs piA _ buf hj
    · exact alt_renderFrame_untouched b cs piA _ (by show 107 < j; omega)

/-- Witness for C9 at brightness 128, chase step 1, phases 5 and 9. -/
theorem c9_render_pure_witness :
    Ino.renderFrame 128 1 5 (Ino.renderFrame 128 1 5 (fun _ => COL_OFF)) =
        Ino.renderFrame 128 1 5 (fun _ => COL_OFF) ∧
      Alt.renderFrame 128 1 9 (Alt.renderFrame 128 1 9 (fun _ => COL_OFF)) =
        Alt.renderFrame 128 1 9 (fun _ => COL_OFF) :=
  c9_render_pure 128 1 5 9 (fun _ => COL_OFF) (by decide)

/-- C10: every PHASES lookup is in bounds — in the .ino variant because
the phase index reached after any number of advances from the initial
state stays below the table length (the advance is modulo
PHASE_COUNT = PHASES.length = 9), and in the part_000 variant because the
lookup only happens under the guard phaseIndex < 9 even though the state
ranges over [0,10). -/
theorem c10_table_lookup_safe (N piG : Nat) (hguard : piG < 9) :
    Ino.advancePhase^[N] 0 < PHASES.length ∧
      Ino.PHASE_COUNT = PHASES.length ∧
      piG < PHASES.length ∧ Alt.PHASE_COUNT = 10 := by
  refine ⟨?_, rfl, by show piG < 9; omega, rfl⟩
  rw [show Ino.advancePhase = fun s => (s + 1) % 9 from rfl,
    iterate_add_one_mod 9 N]
  show N % 9 < 9
  exact Nat.mod_lt _ (by decide)

/-- Witness for C10 at N = 20 advances and guarded index 5. -/
theorem c10_table_lookup_safe_witness :
    Ino.advancePhase^[20] 0 < PHASES.length ∧
      Ino.PHASE_COUNT = PHASES.length ∧
      5 < PHASES.length ∧ Alt.PHASE_COUNT = 10 :=
  c10_table_lookup_safe 20 5 (by decide)

end RocketLed
